import Mathlib

/-!
Formal model of `src/services/face_recognition_service.py` (accios-app).

External collaborators (camera, the OpenCV KCF tracker, the
`face_recognition` library calls, the head-pose solver and the numpy and
sklearn float computations) are modelled as oracle data carried by the
tick and crop inputs; Python floats are modelled by rationals.  Fallible
operations return `Option` or `Bool` mirroring the Python exception
paths.  Line numbers in the comments refer to
`src/services/face_recognition_service.py`.
-/

/-- A face embedding vector (a numpy float array, modelled as a list of
rationals). -/
abbrev Vec := List ℚ

/-- The Unknown sentinel string returned by the recognizer (the literal
`Desconhecido` in the source). -/
def Desconhecido : String := "Desconhecido"

/-- `self.recognition_threshold = 0.55` (line 116). -/
def recognition_threshold : ℚ := 0.55

/-- `self.pose_stride = 2` (line 118). -/
def pose_stride : ℕ := 2

/-- `self.frontality_thr = 35.0` (line 119). -/
def frontality_thr : ℚ := 35.0

/-- `self.min_face_area_rel = 0.05` (line 120). -/
def min_face_area_rel : ℚ := 0.05

/-- `video_scale_factor = 0.5` (constructor default, line 110). -/
def video_scale_factor : ℚ := 0.5

/-- Duration of the `time.sleep(1.0)` in `_process_recognition`
(line 349). -/
def lockout_duration : ℚ := 1.0

/-- `EmbeddingIndex.__init__` (lines 41-47): stores the parallel name list
and the encoding matrix (`self.data`).  The optional sklearn KD-tree
(`self.nn`, built when at least 5 rows are present) is specified to be
behaviourally interchangeable with the brute-force scan, so the model
keeps only the data. -/
structure EmbeddingIndex where
  names : List String
  data : List Vec
  deriving DecidableEq

/-- Scan of `np.argmin` over the tail of a distance list: the running best
`(index, value)` is replaced only by a strictly smaller value, so the
first occurrence of the minimum wins; `i` is the index of the head of the
remaining list. -/
def argminAux (i : ℕ) (best : ℕ × ℚ) : List ℚ → ℕ × ℚ
  | [] => best
  | x :: xs =>
    if x < best.2 then argminAux (i + 1) (i, x) xs
    else argminAux (i + 1) best xs

/-- `np.argmin` on a nonempty list given as head and tail, together with
the minimal value. -/
def argmin (x : ℚ) (xs : List ℚ) : ℕ × ℚ := argminAux 1 (0, x) xs

/-- `EmbeddingIndex.query` (lines 49-58), brute-force branch: the distance
of every stored row to the query vector under the metric `d` (modelling
the float computation `np.linalg.norm(self.data - v, axis=1)`), first
argmin, returned together with the minimal distance.  The empty index
returns `(-1, none)`, where `none` stands for the Python `float(inf)`. -/
def EmbeddingIndex.query (d : Vec → Vec → ℚ) (idx : EmbeddingIndex)
    (v : Vec) : ℤ × Option ℚ :=
  match idx.data with
  | [] => (-1, none)
  | r :: rs =>
    let best := argmin (d r v) (rs.map (fun row => d row v))
    ((best.1 : ℤ), some best.2)

/-- A face crop image together with the results the external
`face_recognition` calls produce on it.  The up-scale of small crops
(lines 360-363) only changes the image handed to those calls, so the
oracle fields already refer to the possibly up-scaled crop: `locs` is
`face_recognition.face_locations(rgb)` and `encOfFirst` the optional
single encoding `face_recognition.face_encodings(rgb, [locs[0]])`. -/
structure FaceCrop where
  h : ℕ
  w : ℕ
  locs : List (ℤ × ℤ × ℤ × ℤ)
  encOfFirst : Option Vec
  deriving DecidableEq

/-- Position of the recognition worker thread inside the body of
`_process_recognition` (a program counter of the loop, not a Python
field): waiting on the queue, between the dequeue and the completion of
`_recognize_face_crop`, or sleeping in the 1.0 s display window. -/
inductive WorkerPhase where
  | idle
  | recognizing (crop : FaceCrop)
  | displaying
  deriving DecidableEq

/-- One entry of `self.pose_buffer` (line 284):
`(score, -area_rel, face_crop, (yaw, pitch, roll))`. -/
structure PoseSample where
  score : ℚ
  negArea : ℚ
  crop : FaceCrop
  yaw : ℚ
  pitch : ℚ
  roll : ℚ
  deriving DecidableEq

/-- The mutable state of `FaceRecognitionService` shared between the two
loops (lines 123-148), plus the worker program counter.  `tracker = true`
models a live `cv2.TrackerKCF` handle (the Tracking state), `false` the
Absent state.  The queue is `queue.Queue(maxsize=1)`, modelled as a list
so that the capacity bound is a provable invariant rather than a typing
artifact. -/
structure SysState where
  tracker : Bool
  track_ok_frames : ℕ
  no_face_frames : ℕ
  pose_buffer : List PoseSample
  recognition_in_progress : Bool
  result_displayed : Bool
  lockout_active : Bool
  lockout_start_time : ℚ
  recognition_queue : List FaceCrop
  frame_count : ℕ
  known_encodings : List Vec
  known_names : List String
  index : Option EmbeddingIndex
  workerPhase : WorkerPhase
  deriving DecidableEq

/-- `FaceRecognitionService._recognize_face_crop` (lines 357-380).  The
result `none` models an uncaught Python exception; the only exception
point kept by the model is the `self.known_names[best_idx]` lookup at
line 379, which raises `IndexError` when the name list is shorter than
the encoding matrix.  The arm for a missing distance mirrors the float
semantics of the source: `max(0.0, 1.0 - inf) = 0.0` and `inf < 0.55` is
false, so the source would return the sentinel with confidence 0. -/
def recognize_face_crop (d : Vec → Vec → ℚ) (s : SysState) (c : FaceCrop) :
    Option (String × ℚ) :=
  if c.h * c.w * 3 = 0 then some (Desconhecido, 0)
  else
    match c.locs with
    | [] => some (Desconhecido, 0)
    | _ :: _ =>
      match c.encOfFirst with
      | none => some (Desconhecido, 0)
      | some vec =>
        match s.index with
        | none => some (Desconhecido, 0)
        | some idx =>
          if s.known_encodings.length = 0 then some (Desconhecido, 0)
          else
            match idx.query d vec with
            | (best_idx, dist) =>
              if best_idx < 0 then some (Desconhecido, 0)
              else
                match dist with
                | none => some (Desconhecido, 0)
                | some q =>
                  let confidence := max 0 (1 - q)
                  if q < recognition_threshold then
                    (s.known_names.get? best_idx.toNat).map
                      (fun n => (n, confidence))
                  else some (Desconhecido, confidence)

/-- `process_single_frame` (lines 479-480): delegates to
`_recognize_face_crop`.  Neither method body contains an attribute
assignment, so the service state is returned unchanged. -/
def process_single_frame (d : Vec → Vec → ℚ) (s : SysState)
    (frame : FaceCrop) : SysState × Option (String × ℚ) :=
  (s, recognize_face_crop d s frame)

/-- Semantic content of the byte blob at `self.encodings_file`:
`malformed` covers every case in which `pickle.load` raises or the loaded
object rejects the `data.get` calls (the state is then still untouched);
`table` is a successfully unpickled dict with its `encodings` and `names`
entries (a dict missing a key yields the `[]` default of `dict.get`). -/
inductive FileData where
  | malformed
  | table (encodings : List Vec) (names : List String)
  deriving DecidableEq

/-- Success condition of `np.asarray(encodings, dtype=np.float32)` inside
`EmbeddingIndex.__init__` (line 43): the call raises `ValueError` on a
ragged list of vectors, i.e. succeeds exactly when all rows have the same
length. -/
def asarray_ok (encs : List Vec) : Bool :=
  match encs with
  | [] => true
  | v :: rest => rest.all (fun u => u.length == v.length)

/-- `load_encodings` (lines 154-166).  The file oracle is `none` when
`os.path.exists` is false.  On a successful unpickle the source assigns
`self.known_encodings` and `self.known_names` first and only then builds
`EmbeddingIndex`; if that build raises (ragged data), the exception is
caught and `False` returned, but the two list fields have already been
replaced while `self.index` has not. -/
def load_encodings (s : SysState) (file : Option FileData) :
    SysState × Bool :=
  match file with
  | none => (s, false)
  | some .malformed => (s, false)
  | some (.table encs names) =>
    if asarray_ok encs then
      ({ s with known_encodings := encs, known_names := names,
                index := some { names := names, data := encs } }, true)
    else
      ({ s with known_encodings := encs, known_names := names }, false)

/-- `update_encodings` (lines 168-175): write the raw bytes to the backing
path, then reload.  `write_ok = false` models an exception from the file
write, which is caught and reported as `False` with nothing changed.  The
result carries the new state, the new file contents and the reported
Boolean. -/
def update_encodings (s : SysState) (file : Option FileData)
    (newBytes : FileData) (write_ok : Bool) :
    SysState × Option FileData × Bool :=
  if write_ok then
    ((load_encodings s (some newBytes)).1, some newBytes,
      (load_encodings s (some newBytes)).2)
  else (s, file, false)

/-- `queue.Queue(maxsize=1)` with `put_nowait` (line 291): the call
returns immediately either way; `none` models the `queue.Full` exception
raised when the queue already holds `maxsize` items. -/
def putNowait (q : List FaceCrop) (c : FaceCrop) : Option (List FaceCrop) :=
  if 1 ≤ q.length then none else some (q ++ [c])

/-- `deque(maxlen=12).append` (lines 132, 284): appends to the right and
drops the oldest (leftmost) entry when full. -/
def dequeAppend (l : List PoseSample) (x : PoseSample) : List PoseSample :=
  if l.length < 12 then l ++ [x] else l.tail ++ [x]

/-- Python tuple comparison on the first two sample components, as used by
`min(self.pose_buffer, key=lambda t: (t[0], t[1]))` at line 287. -/
def keyLt (a b : PoseSample) : Prop :=
  a.score < b.score ∨ (a.score = b.score ∧ a.negArea < b.negArea)

instance (a b : PoseSample) : Decidable (keyLt a b) :=
  inferInstanceAs (Decidable (_ ∨ _))

/-- Python `min` with the key above on the nonempty buffer `b :: bs`: the
running best is replaced only by a strictly smaller key, so the first
minimum wins. -/
def pyMin (b : PoseSample) (bs : List PoseSample) : PoseSample :=
  bs.foldl (fun best x => if keyLt x best then x else best) b

/-- Python `int()` on a rational: truncation toward zero. -/
def pyInt (q : ℚ) : ℤ := if 0 ≤ q then ⌊q⌋ else -⌊-q⌋

/-- One box of `FaceDetector.detect`: `(x1, y1, x2, y2, score)` in the
coordinates of the frame it was given. -/
structure DetBox where
  x1 : ℤ
  y1 : ℤ
  x2 : ℤ
  y2 : ℤ
  score : ℚ
  deriving DecidableEq

def DetBox.area (b : DetBox) : ℤ := (b.x2 - b.x1) * (b.y2 - b.y1)

/-- `faces.sort(key=area, reverse=True)` followed by `faces[0]`
(lines 308-309): the first box of maximal area, since the Python sort is
stable. -/
def largestFace (f : DetBox) (fs : List DetBox) : DetBox :=
  fs.foldl (fun best g => if best.area < g.area then g else best) f

/-- Oracle data for one capture tick while a tracker is active: the
outcome of `self.tracker.update(frame)` (`ok` and the box
`(x, y, w, h)`), the frame dimensions, the result of
`_estimate_head_pose_angles` on the crop, and the contents of the crop
`frame[y1:y2, x1:x2]`. -/
structure TrackTick where
  ok : Bool
  x : ℤ
  y : ℤ
  w : ℤ
  h : ℤ
  frameW : ℤ
  frameH : ℤ
  pose : Option (ℚ × ℚ × ℚ)
  crop : FaceCrop
  deriving DecidableEq

/-- Oracle data for one capture tick with no tracker: the boxes returned
by `self.detector.detect(small)` in down-scaled coordinates, and the
full-frame dimensions. -/
structure DetectTick where
  faces : List DetBox
  frameW : ℤ
  frameH : ℤ
  deriving DecidableEq

/-- Lines 278-284: on every `pose_stride`-th frame, if the pose estimate
is available, compute the quality score and relative area from the
clipped box and push `(score, -area_rel, crop, angles)` onto the
buffer. -/
def samplePose (s : SysState) (t : TrackTick) : SysState :=
  if s.frame_count % pose_stride = 0 then
    match t.pose with
    | none => s
    | some (yaw, pitch, roll) =>
      let x1 := max 0 t.x
      let y1 := max 0 t.y
      let x2 := min t.frameW (t.x + t.w)
      let y2 := min t.frameH (t.y + t.h)
      let area_rel : ℚ :=
        (((x2 - x1) * (y2 - y1) : ℤ) : ℚ) / ((t.frameH * t.frameW : ℤ) : ℚ)
      let score : ℚ := |yaw| + 0.8 * |pitch| + 0.3 * |roll|
      { s with pose_buffer :=
          (dequeAppend s.pose_buffer
            ⟨score, -area_rel, t.crop, yaw, pitch, roll⟩) }
  else s

/-- Lines 285-295: candidate selection and the non-blocking hand-off to
the recognition queue.  The returned `Bool` reports whether `put_nowait`
was called.  The arm for a full queue is the `except queue.Full: pass` of
the source; the arm for an empty buffer is unreachable under the `≥ 3`
guard (Python `min` would raise there). -/
def trySubmit (s : SysState) : SysState × Bool :=
  if s.recognition_in_progress = false ∧ s.result_displayed = false ∧
      s.recognition_queue = [] ∧ 3 ≤ s.pose_buffer.length then
    match s.pose_buffer with
    | [] => (s, false)
    | b :: bs =>
      if (pyMin b bs).score < frontality_thr ∧
          min_face_area_rel ≤ -(pyMin b bs).negArea then
        match putNowait s.recognition_queue (pyMin b bs).crop with
        | some q =>
          ({ s with recognition_queue := q, recognition_in_progress := true,
                    pose_buffer := [] }, true)
        | none => (s, true)
      else (s, false)
  else (s, false)

/-- Lines 270-302: one capture tick with an active tracker.  On an update
failure `_stop_tracker` resets the handle and `track_ok_frames`, then the
buffer and the no-face counter are cleared. -/
def tickTracking (s : SysState) (t : TrackTick) : SysState :=
  if t.ok then
    (trySubmit
      (samplePose { s with track_ok_frames := s.track_ok_frames + 1 } t)).1
  else
    { s with tracker := false, track_ok_frames := 0, pose_buffer := [],
             no_face_frames := 0 }

/-- Relative area of a detection box after the rescale of its corners to
full-frame coordinates by `int(v / scale)` (lines 310-311). -/
def rescaledAreaRel (b : DetBox) (frameH frameW : ℤ) : ℚ :=
  (((pyInt ((b.x2 : ℚ) / video_scale_factor) -
      pyInt ((b.x1 : ℚ) / video_scale_factor)) *
    (pyInt ((b.y2 : ℚ) / video_scale_factor) -
      pyInt ((b.y1 : ℚ) / video_scale_factor)) : ℤ) : ℚ) /
  ((frameH * frameW : ℤ) : ℚ)

/-- Lines 304-315: one capture tick without a tracker: detection on the
down-scaled frame, rescale of the winning box by `int(v / scale)`, the
minimum-area gate, then `_start_tracker` (which resets `track_ok_frames`)
and the buffer clear. -/
def tickDetecting (s : SysState) (dt : DetectTick) : SysState :=
  match dt.faces with
  | [] => s
  | f :: fs =>
    if min_face_area_rel ≤ rescaledAreaRel (largestFace f fs) dt.frameH dt.frameW then
      { s with tracker := true, track_ok_frames := 0, pose_buffer := [] }
    else s

/-- `self.frame_count += 1` at line 264, executed for every processed
frame before the branch on the tracker. -/
def bumpFrame (s : SysState) : SysState :=
  { s with frame_count := s.frame_count + 1 }

/-- One processed frame of `_capture_and_display_frames` (lines 259-326):
bump `frame_count`, then the tracking or the detection branch.  The rate
gate and the fatal read-failure exit only select which frames are
processed; the overlay callback cannot change the service state (its
exceptions are swallowed at lines 319-322). -/
def captureStep (s : SysState) (t : TrackTick) (dt : DetectTick) :
    SysState :=
  if s.tracker then tickTracking (bumpFrame s) t
  else tickDetecting (bumpFrame s) dt

/-- Lines 331-335: `recognition_queue.get(timeout=0.1)` — either the
timeout (no state change) or the dequeue of the single pending crop. -/
def workerReceive (s : SysState) : SysState :=
  match s.workerPhase with
  | .idle =>
    match s.recognition_queue with
    | [] => s
    | c :: rest =>
      { s with recognition_queue := rest, workerPhase := .recognizing c }
  | _ => s

/-- Lines 337-348: the assignments executed once `_recognize_face_crop`
returns, up to the `time.sleep(1.0)` (the computed name and confidence
only feed a dead local `label`): clear the in-progress flag, set the
displayed flag, `_stop_tracker`, and start the lockout at the current
time. -/
def workerFinish (s : SysState) (now : ℚ) : SysState :=
  match s.workerPhase with
  | .recognizing _ =>
    { s with recognition_in_progress := false, result_displayed := true,
             tracker := false, track_ok_frames := 0,
             lockout_active := true, lockout_start_time := now,
             workerPhase := .displaying }
  | _ => s

/-- Lines 350-351: the assignments executed when the sleep returns. -/
def workerWake (s : SysState) : SysState :=
  match s.workerPhase with
  | .displaying =>
    { s with result_displayed := false, lockout_active := false,
             workerPhase := .idle }
  | _ => s

/-- Lines 352-354: an exception inside `_recognize_face_crop` is caught
and only the in-progress flag is cleared. -/
def workerFail (s : SysState) : SysState :=
  match s.workerPhase with
  | .recognizing _ =>
    { s with recognition_in_progress := false, workerPhase := .idle }
  | _ => s

/-- The displayed and lockout flags at wall-clock time `t` after the
worker produced a result at time `T`: the values set by `workerFinish`
hold while the worker sleeps in `time.sleep(1.0)` (idealised as exactly
`lockout_duration`), and the values set by `workerWake` from then on. -/
def postResultFlags (s : SysState) (T t : ℚ) : Bool × Bool :=
  if t < T + lockout_duration then
    ((workerFinish s T).result_displayed, (workerFinish s T).lockout_active)
  else
    ((workerWake (workerFinish s T)).result_displayed,
      (workerWake (workerFinish s T)).lockout_active)

/-- The `__init__` state (lines 123-148) before the trailing
`load_encodings()` call of the constructor. -/
def freshState : SysState :=
  { tracker := false, track_ok_frames := 0, no_face_frames := 0,
    pose_buffer := [], recognition_in_progress := false,
    result_displayed := false, lockout_active := false,
    lockout_start_time := 0, recognition_queue := [], frame_count := 0,
    known_encodings := [], known_names := [], index := none,
    workerPhase := .idle }

/-- The service state right after `__init__`, whose last action is a
`load_encodings()` against whatever is at `encodings_file` (line 151). -/
def initState (file : Option FileData) : SysState :=
  (load_encodings freshState file).1

/-- Interleaving of the capture loop and the recognition worker at the
granularity of the shared-state blocks between their suspension points
(frame read, queue wait, recognition call, sleep). -/
inductive Step : SysState → SysState → Prop where
  | cap (s : SysState) (t : TrackTick) (dt : DetectTick) :
      Step s (captureStep s t dt)
  | recv (s : SysState) : Step s (workerReceive s)
  | finish (s : SysState) (now : ℚ) : Step s (workerFinish s now)
  | fail (s : SysState) : Step s (workerFail s)
  | wake (s : SysState) : Step s (workerWake s)

/-- States reachable from a freshly constructed service by any
interleaving of capture-loop and worker steps. -/
inductive Reachable : SysState → Prop where
  | init (file : Option FileData) : Reachable (initState file)
  | step {s s' : SysState} : Reachable s → Step s s' → Reachable s'

/-! Concrete inputs used by the closed witness and counterexample
theorems below. -/

/-- A 50 by 50 crop on which the external calls find nothing. -/
def exCrop : FaceCrop := ⟨50, 50, [], none⟩

/-- A second crop, distinct from `exCrop`. -/
def exCropB : FaceCrop := ⟨40, 40, [], none⟩

/-- A perfectly frontal pose sample covering a quarter of the frame. -/
def exSample : PoseSample := ⟨0, -(1/4), exCrop, 0, 0, 0⟩

/-- A successful tracker tick: box `(10, 10, 50, 50)` in a 100 by 100
frame, pose angles all zero. -/
def exTick : TrackTick := ⟨true, 10, 10, 50, 50, 100, 100, some (0, 0, 0), exCrop⟩

/-- A failing tracker tick. -/
def exFailTick : TrackTick := ⟨false, 0, 0, 0, 0, 100, 100, none, exCrop⟩

/-- A detection tick whose winning box rescales to `(10, 10, 60, 60)` in
the 100 by 100 frame. -/
def exDet : DetectTick := ⟨[⟨5, 5, 30, 30, 9/10⟩], 100, 100⟩

/-- A tracker tick that is never consulted (used when the state has no
tracker). -/
def exIdleTick : TrackTick := ⟨true, 0, 0, 0, 0, 100, 100, none, exCrop⟩

/-- A state ready for candidate selection: three buffered samples, no
recognition in progress, empty queue. -/
def exSelState : SysState :=
  { freshState with pose_buffer := [exSample, exSample, exSample] }

/-- The C5 counterexample trace: detection starts the tracker on frame 1,
frames 2, 4 and 6 buffer pose samples, frame 6 submits the candidate and
clears the buffer, the worker dequeues, frame 8 buffers a fresh sample
while the recognition is still running, and then the worker finishes. -/
def c5s1 : SysState := captureStep (initState none) exIdleTick exDet
def c5s2 : SysState := captureStep c5s1 exTick exDet
def c5s3 : SysState := captureStep c5s2 exTick exDet
def c5s4 : SysState := captureStep c5s3 exTick exDet
def c5s5 : SysState := captureStep c5s4 exTick exDet
def c5s6 : SysState := captureStep c5s5 exTick exDet
def c5s7 : SysState := workerReceive c5s6
def c5s8 : SysState := captureStep c5s7 exTick exDet
def c5s9 : SysState := captureStep c5s8 exTick exDet
def c5post : SysState := workerFinish c5s9 5

/-- Three samples for the selection witness: `c3c` ties with `c3b` on the
quality score and wins by the larger area. -/
def c3a : PoseSample := ⟨5, -(1/10), exCrop, 1, 1, 1⟩

def c3b : PoseSample := ⟨2, -(1/5), exCrop, 1, 0, 0⟩

def c3c : PoseSample := ⟨2, -(1/2), exCrop, 1, 0, 0⟩

/-- A state with one loaded identity, for the load counterexample. -/
def c8State : SysState :=
  { freshState with known_encodings := [[1, 2]], known_names := ["alice"],
                    index := some ⟨["alice"], [[1, 2]]⟩ }

/-- A pickled table whose encodings are ragged, so the index rebuild
raises. -/
def c8Bad : FileData := .table [[1], [2, 3]] ["x", "y"]

/-- A state whose worker is in the middle of a recognition. -/
def c6State : SysState := { freshState with workerPhase := .recognizing exCrop }

/-- A crop on which a face is located and encoded, for the recognition
witness. -/
def c2Crop : FaceCrop := ⟨200, 200, [(0, 200, 200, 0)], some [1]⟩

/-- A state with one known identity named alice, for the recognition
witness. -/
def c2State : SysState :=
  { freshState with known_encodings := [[1]], known_names := ["alice"],
                    index := some ⟨["alice"], [[1]]⟩ }

/-- A constant metric, standing in for the external distance
computation. -/
def c2Metric : Vec → Vec → ℚ := fun _ _ => 1/10

/-- A metric at distance 1 everywhere, above the threshold. -/
def c2FarMetric : Vec → Vec → ℚ := fun _ _ => 1

/-! Helper lemmas about the queue discipline. -/

theorem load_encodings_queue (s : SysState) (f : Option FileData) :
    (load_encodings s f).1.recognition_queue = s.recognition_queue := by
  rcases f with _ | (_ | ⟨E, N⟩)
  · rfl
  · rfl
  · simp only [load_encodings]
    split <;> rfl

theorem samplePose_queue (s : SysState) (t : TrackTick) :
    (samplePose s t).recognition_queue = s.recognition_queue := by
  unfold samplePose
  split
  · rcases t.pose with _ | ⟨yaw, pitch, roll⟩ <;> rfl
  · rfl

theorem trySubmit_queue (s : SysState) :
    (trySubmit s).1.recognition_queue = s.recognition_queue ∨
      (s.recognition_queue = [] ∧
        ∃ c, (trySubmit s).1.recognition_queue = [c]) := by
  unfold trySubmit
  split
  on_goal 2 => exact Or.inl rfl
  rename_i hguard
  split
  · exact Or.inl rfl
  rename_i b bs hbuf
  split
  on_goal 2 => exact Or.inl rfl
  have hq : s.recognition_queue = [] := hguard.2.2.1
  refine Or.inr ⟨hq, (pyMin b bs).crop, ?_⟩
  rw [hq]
  simp [putNowait]

theorem tickDetecting_queue (s : SysState) (dt : DetectTick) :
    (tickDetecting s dt).recognition_queue = s.recognition_queue := by
  unfold tickDetecting
  split
  · rfl
  · split <;> rfl

theorem tickTracking_queue (s : SysState) (t : TrackTick) :
    (tickTracking s t).recognition_queue = s.recognition_queue ∨
      (s.recognition_queue = [] ∧
        ∃ c, (tickTracking s t).recognition_queue = [c]) := by
  unfold tickTracking
  split
  · have h1 := trySubmit_queue
      (samplePose { s with track_ok_frames := s.track_ok_frames + 1 } t)
    rw [samplePose_queue] at h1
    exact h1
  · exact Or.inl rfl

theorem captureStep_queue (s : SysState) (t : TrackTick) (dt : DetectTick) :
    (captureStep s t dt).recognition_queue = s.recognition_queue ∨
      (s.recognition_queue = [] ∧
        ∃ c, (captureStep s t dt).recognition_queue = [c]) := by
  unfold captureStep
  split
  · exact tickTracking_queue (bumpFrame s) t
  · exact Or.inl ((tickDetecting_queue (bumpFrame s) dt).trans rfl)

theorem workerReceive_queue (s : SysState) :
    (workerReceive s).recognition_queue.length ≤
      s.recognition_queue.length := by
  unfold workerReceive
  rcases s.workerPhase with _ | c | _
  · rcases hq : s.recognition_queue with _ | ⟨c, rest⟩
    · simp [hq]
    · simp [hq]
  · simp
  · simp

theorem workerFinish_queue (s : SysState) (now : ℚ) :
    (workerFinish s now).recognition_queue = s.recognition_queue := by
  unfold workerFinish
  rcases s.workerPhase with _ | c | _ <;> rfl

theorem workerWake_queue (s : SysState) :
    (workerWake s).recognition_queue = s.recognition_queue := by
  unfold workerWake
  rcases s.workerPhase with _ | c | _ <;> rfl

theorem workerFail_queue (s : SysState) :
    (workerFail s).recognition_queue = s.recognition_queue := by
  unfold workerFail
  rcases s.workerPhase with _ | c | _ <;> rfl

theorem reachable_queue_le_one (s : SysState) (h : Reachable s) :
    s.recognition_queue.length ≤ 1 := by
  induction h with
  | init file =>
    rw [initState, load_encodings_queue]
    simp [freshState]
  | step hr hs ih =>
    cases hs with
    | cap t dt =>
      rcases captureStep_queue _ t dt with h1 | ⟨h1, c, h2⟩
      · rw [h1]; exact ih
      · rw [h2]; simp
    | recv => exact le_trans (workerReceive_queue _) ih
    | finish now => rw [workerFinish_queue]; exact ih
    | fail => rw [workerFail_queue]; exact ih
    | wake => rw [workerWake_queue]; exact ih

theorem trySubmit_attempt_guard (s : SysState)
    (h : (trySubmit s).2 = true) :
    s.recognition_in_progress = false ∧ s.recognition_queue = [] := by
  unfold trySubmit at h
  split at h
  on_goal 2 => exact absurd h (by simp)
  rename_i hguard
  exact ⟨hguard.1, hguard.2.2.1⟩

theorem putNowait_full_drop (q : List FaceCrop) (c : FaceCrop)
    (h : 1 ≤ q.length) : putNowait q c = none := by
  unfold putNowait
  rw [if_pos h]

theorem exSel_submit : (trySubmit exSelState).2 = true := by
  simp only [trySubmit, exSelState, freshState, exSample, pyMin, keyLt,
    putNowait, frontality_thr, min_face_area_rel, List.foldl, List.length]
  norm_num

/-- C1: along every interleaving of capture-loop and worker steps the
single-slot queue holds at most one pending request; `put_nowait` on an
occupied slot drops the candidate immediately instead of blocking; and
the capture loop attempts the enqueue only when the in-progress flag is
false and the queue was observed empty. -/
theorem scheduler_single_slot :
    (∀ s : SysState, Reachable s → s.recognition_queue.length ≤ 1) ∧
    (∀ (q : List FaceCrop) (c : FaceCrop), 1 ≤ q.length →
      putNowait q c = none) ∧
    (∀ s : SysState, (trySubmit s).2 = true →
      s.recognition_in_progress = false ∧ s.recognition_queue = []) :=
  ⟨reachable_queue_le_one, putNowait_full_drop, trySubmit_attempt_guard⟩

/-- C1 witness: the invariant at the initial state, the drop on a full
slot, and the guard at a concrete submitting state. -/
theorem scheduler_single_slot_witness :
    (initState none).recognition_queue.length ≤ 1 ∧
    1 ≤ [exCrop].length ∧
    putNowait [exCrop] exCropB = none ∧
    (trySubmit exSelState).2 = true ∧
    exSelState.recognition_in_progress = false ∧
    exSelState.recognition_queue = [] :=
  ⟨scheduler_single_slot.1 _ (Reachable.init none),
   by simp,
   scheduler_single_slot.2.1 [exCrop] exCropB (by simp),
   exSel_submit,
   (scheduler_single_slot.2.2 exSelState exSel_submit).1,
   (scheduler_single_slot.2.2 exSelState exSel_submit).2⟩

/-! Helper lemmas about the candidate selection. -/

theorem keyLt_irrefl (a : PoseSample) : ¬ keyLt a a := by
  rintro (h | ⟨_, h⟩) <;> exact lt_irrefl _ h

theorem keyLt_trans {a b c : PoseSample} (h1 : keyLt a b)
    (h2 : keyLt b c) : keyLt a c := by
  rcases h1 with h1 | ⟨e1, n1⟩ <;> rcases h2 with h2 | ⟨e2, n2⟩
  · exact Or.inl (h1.trans h2)
  · exact Or.inl (lt_of_lt_of_eq h1 e2)
  · exact Or.inl (lt_of_eq_of_lt e1 h2)
  · exact Or.inr ⟨e1.trans e2, n1.trans n2⟩

theorem not_keyLt_iff {a b : PoseSample} :
    ¬ keyLt a b ↔
      b.score ≤ a.score ∧ (a.score = b.score → b.negArea ≤ a.negArea) := by
  unfold keyLt
  push_neg
  rfl

theorem keyLt_of_not_lt_of_lt {y b m : PoseSample} (h1 : ¬ keyLt y b)
    (h2 : keyLt y m) : keyLt b m := by
  rcases not_keyLt_iff.mp h1 with ⟨hs, hn⟩
  rcases h2 with h2 | ⟨e2, n2⟩
  · exact Or.inl (lt_of_le_of_lt hs h2)
  · rcases lt_or_eq_of_le hs with h3 | h3
    · exact Or.inl (lt_of_lt_of_eq h3 e2)
    · exact Or.inr ⟨h3.trans e2, lt_of_le_of_lt (hn h3.symm) n2⟩

theorem pyMin_cons (b y : PoseSample) (ys : List PoseSample) :
    pyMin b (y :: ys) = pyMin (if keyLt y b then y else b) ys := rfl

theorem pyMin_mem (b : PoseSample) (bs : List PoseSample) :
    pyMin b bs ∈ b :: bs := by
  induction bs generalizing b with
  | nil => simp [pyMin]
  | cons y ys ih =>
    rw [pyMin_cons]
    by_cases hk : keyLt y b
    · rw [if_pos hk]
      rcases List.mem_cons.mp (ih y) with h1 | h1
      · rw [h1]; exact List.mem_cons_of_mem _ (List.mem_cons_self _ _)
      · exact List.mem_cons_of_mem _ (List.mem_cons_of_mem _ h1)
    · rw [if_neg hk]
      rcases List.mem_cons.mp (ih b) with h1 | h1
      · rw [h1]; exact List.mem_cons_self _ _
      · exact List.mem_cons_of_mem _ (List.mem_cons_of_mem _ h1)

theorem pyMin_not_lt (b : PoseSample) (bs : List PoseSample) :
    ∀ x ∈ b :: bs, ¬ keyLt x (pyMin b bs) := by
  induction bs generalizing b with
  | nil =>
    intro x hx
    rcases List.mem_cons.mp hx with h1 | h1
    · rw [h1]; exact keyLt_irrefl b
    · exact absurd h1 (List.not_mem_nil x)
  | cons y ys ih =>
    intro x hx
    rw [pyMin_cons]
    by_cases hk : keyLt y b
    · rw [if_pos hk]
      rcases List.mem_cons.mp hx with h1 | h1
      · rw [h1]
        intro hlt
        exact ih y y (List.mem_cons_self _ _) (keyLt_trans hk hlt)
      · rcases List.mem_cons.mp h1 with h2 | h2
        · rw [h2]; exact ih y y (List.mem_cons_self _ _)
        · exact ih y x (List.mem_cons_of_mem _ h2)
    · rw [if_neg hk]
      rcases List.mem_cons.mp hx with h1 | h1
      · rw [h1]; exact ih b b (List.mem_cons_self _ _)
      · rcases List.mem_cons.mp h1 with h2 | h2
        · rw [h2]
          intro hlt
          exact ih b b (List.mem_cons_self _ _)
            (keyLt_of_not_lt_of_lt hk hlt)
        · exact ih b x (List.mem_cons_of_mem _ h2)

/-- C3: the candidate selected from any buffer of at least three samples
is a member of the buffer, minimises the lexicographic key
`(qualityScore, -areaRatio)`, and among samples of equal quality score
has the smallest stored `-areaRatio`, i.e. the largest area ratio. -/
theorem candidate_selection_lex_min (b : PoseSample)
    (bs : List PoseSample) (hlen : 3 ≤ (b :: bs).length) :
    pyMin b bs ∈ b :: bs ∧
    (∀ x ∈ b :: bs, (pyMin b bs).score < x.score ∨
      ((pyMin b bs).score = x.score ∧ (pyMin b bs).negArea ≤ x.negArea)) ∧
    (∀ x ∈ b :: bs, x.score = (pyMin b bs).score →
      (pyMin b bs).negArea ≤ x.negArea) := by
  refine ⟨pyMin_mem b bs, ?_, ?_⟩
  · intro x hx
    rcases not_keyLt_iff.mp (pyMin_not_lt b bs x hx) with ⟨hs, hn⟩
    rcases lt_or_eq_of_le hs with h | h
    · exact Or.inl h
    · exact Or.inr ⟨h, hn h.symm⟩
  · intro x hx he
    rcases not_keyLt_iff.mp (pyMin_not_lt b bs x hx) with ⟨hs, hn⟩
    exact hn he

theorem c3_min_eq : pyMin c3a [c3b, c3c] = c3c := by
  simp only [pyMin, keyLt, List.foldl, c3a, c3b, c3c]
  norm_num

/-- C3 witness: the selection property at a concrete three-sample
buffer where two samples tie on the quality score. -/
theorem candidate_selection_lex_min_witness :
    3 ≤ (c3a :: [c3b, c3c]).length ∧
    (pyMin c3a [c3b, c3c] ∈ c3a :: [c3b, c3c] ∧
    (∀ x ∈ c3a :: [c3b, c3c], (pyMin c3a [c3b, c3c]).score < x.score ∨
      ((pyMin c3a [c3b, c3c]).score = x.score ∧
        (pyMin c3a [c3b, c3c]).negArea ≤ x.negArea)) ∧
    (∀ x ∈ c3a :: [c3b, c3c], x.score = (pyMin c3a [c3b, c3c]).score →
      (pyMin c3a [c3b, c3c]).negArea ≤ x.negArea)) :=
  ⟨by simp, candidate_selection_lex_min c3a [c3b, c3c] (by simp)⟩

/-- C4: on a tick where candidate selection runs (flags clear, queue slot
empty, at least three buffered samples) and the winning sample passes the
frontality and area gates, the crop is handed to the queue by the
non-blocking put, recognition is marked in progress, and the pose buffer
is left empty. -/
theorem submit_clears_buffer (s : SysState) (b : PoseSample)
    (bs : List PoseSample)
    (hbuf : s.pose_buffer = b :: bs)
    (hflag : s.recognition_in_progress = false)
    (hdisp : s.result_displayed = false)
    (hq : s.recognition_queue = [])
    (hlen : 3 ≤ s.pose_buffer.length)
    (hscore : (pyMin b bs).score < frontality_thr)
    (harea : min_face_area_rel ≤ -(pyMin b bs).negArea) :
    (trySubmit s).1.recognition_queue = [(pyMin b bs).crop] ∧
    (trySubmit s).1.recognition_in_progress = true ∧
    (trySubmit s).1.pose_buffer = [] ∧
    (trySubmit s).2 = true := by
  unfold trySubmit
  rw [if_pos ⟨hflag, hdisp, hq, hlen⟩, hbuf]
  simp only [if_pos (And.intro hscore harea), hq, putNowait]
  norm_num

theorem c4_min_eq : pyMin exSample [exSample, exSample] = exSample := by
  simp only [pyMin, keyLt, List.foldl, exSample]
  norm_num

/-- C4 witness: the submission at a concrete state holding three
passing samples. -/
theorem submit_clears_buffer_witness :
    exSelState.pose_buffer = exSample :: [exSample, exSample] ∧
    exSelState.recognition_in_progress = false ∧
    exSelState.result_displayed = false ∧
    exSelState.recognition_queue = [] ∧
    3 ≤ exSelState.pose_buffer.length ∧
    (pyMin exSample [exSample, exSample]).score < frontality_thr ∧
    min_face_area_rel ≤ -(pyMin exSample [exSample, exSample]).negArea ∧
    (trySubmit exSelState).1.recognition_queue =
      [(pyMin exSample [exSample, exSample]).crop] ∧
    (trySubmit exSelState).1.recognition_in_progress = true ∧
    (trySubmit exSelState).1.pose_buffer = [] ∧
    (trySubmit exSelState).2 = true := by
  have h := submit_clears_buffer exSelState exSample [exSample, exSample]
    rfl rfl rfl rfl (by simp [exSelState, freshState])
    (by rw [c4_min_eq]; simp [exSample, frontality_thr]; norm_num)
    (by rw [c4_min_eq]; simp [exSample, min_face_area_rel]; norm_num)
  refine ⟨rfl, rfl, rfl, rfl, by simp [exSelState, freshState], ?_, ?_,
    h.1, h.2.1, h.2.2.1, h.2.2.2⟩
  · rw [c4_min_eq]; simp [exSample, frontality_thr]; norm_num
  · rw [c4_min_eq]; simp [exSample, min_face_area_rel]; norm_num

/-- C6: when the worker finishes a recognition it clears the in-progress
flag, stops the tracker, and records the lockout start; the displayed and
lockout flags then read true at every time in the interval of length
`lockout_duration` that starts at the result time, and false at and after
its end. -/
theorem worker_result_lockout (s : SysState) (c : FaceCrop) (T t : ℚ)
    (h : s.workerPhase = .recognizing c) :
    (workerFinish s T).recognition_in_progress = false ∧
    (workerFinish s T).tracker = false ∧
    (workerFinish s T).lockout_start_time = T ∧
    (T ≤ t → t < T + lockout_duration →
      postResultFlags s T t = (true, true)) ∧
    (T + lockout_duration ≤ t →
      postResultFlags s T t = (false, false)) := by
  refine ⟨by simp [workerFinish, h], by simp [workerFinish, h],
    by simp [workerFinish, h], ?_, ?_⟩
  · intro h1 h2
    simp only [postResultFlags, if_pos h2]
    simp [workerFinish, h]
  · intro h1
    simp only [postResultFlags, if_neg (not_lt.mpr h1)]
    simp [workerFinish, workerWake, h]

/-- C6 witness: the lockout timeline at a concrete recognizing state,
sampled inside the window and at its end. -/
theorem worker_result_lockout_witness :
    c6State.workerPhase = .recognizing exCrop ∧
    (workerFinish c6State 2).recognition_in_progress = false ∧
    (workerFinish c6State 2).tracker = false ∧
    (workerFinish c6State 2).lockout_start_time = 2 ∧
    postResultFlags c6State 2 (5/2) = (true, true) ∧
    postResultFlags c6State 2 3 = (false, false) :=
  ⟨rfl,
   (worker_result_lockout c6State exCrop 2 (5/2) rfl).1,
   (worker_result_lockout c6State exCrop 2 (5/2) rfl).2.1,
   (worker_result_lockout c6State exCrop 2 (5/2) rfl).2.2.1,
   (worker_result_lockout c6State exCrop 2 (5/2) rfl).2.2.2.1
     (by norm_num) (by norm_num [lockout_duration]),
   (worker_result_lockout c6State exCrop 2 3 rfl).2.2.2.2
     (by norm_num [lockout_duration])⟩

/-! Helper lemmas about the nearest-neighbour query. -/

theorem argminAux_fst_lt (l : List ℚ) : ∀ (i : ℕ) (best : ℕ × ℚ),
    best.1 < i → (argminAux i best l).1 < i + l.length := by
  induction l with
  | nil => intro i best h; simpa using h
  | cons x xs ih =>
    intro i best h
    unfold argminAux
    split
    · have h2 := ih (i + 1) (i, x) (Nat.lt_succ_self i)
      simp only [List.length_cons]
      omega
    · have h2 := ih (i + 1) best (Nat.lt_succ_of_lt h)
      simp only [List.length_cons]
      omega

theorem query_pos (d : Vec → Vec → ℚ) (idx : EmbeddingIndex) (v : Vec)
    (bi : ℤ) (q : ℚ) (h : idx.query d v = (bi, some q)) :
    0 ≤ bi ∧ bi.toNat < idx.data.length := by
  rcases hd : idx.data with _ | ⟨r, rs⟩
  · simp [EmbeddingIndex.query, hd] at h
  · simp only [EmbeddingIndex.query, hd] at h
    have h1 : ((argmin (d r v) (rs.map (fun row => d row v))).1 : ℤ) = bi :=
      congrArg Prod.fst h
    constructor
    · rw [← h1]
      exact Int.ofNat_nonneg _
    · rw [← h1]
      simp only [Int.toNat_ofNat]
      have h2 := argminAux_fst_lt (rs.map (fun row => d row v)) 1
        (0, d r v) (by norm_num)
      unfold argmin
      simp only [List.length_cons, List.length_map] at *
      omega

/-- C2: whenever the recognizer reaches the nearest-neighbour stage, the
returned confidence is `max 0 (1 - distance)` for the queried distance;
below the threshold the name at the nearest index is returned, otherwise
the Unknown sentinel with the same confidence. -/
theorem recognize_confidence_threshold
    (d : Vec → Vec → ℚ) (s : SysState) (c : FaceCrop)
    (idx : EmbeddingIndex) (vec : Vec) (bi : ℤ) (q : ℚ)
    (hidx : s.index = some idx)
    (hk : s.known_encodings ≠ [])
    (hsize : c.h * c.w * 3 ≠ 0)
    (hlocs : c.locs ≠ [])
    (henc : c.encOfFirst = some vec)
    (hq : idx.query d vec = (bi, some q))
    (hpar : idx.data.length ≤ s.known_names.length) :
    (q < recognition_threshold →
      ∃ n, s.known_names.get? bi.toNat = some n ∧
        recognize_face_crop d s c = some (n, max 0 (1 - q))) ∧
    (recognition_threshold ≤ q →
      recognize_face_crop d s c = some (Desconhecido, max 0 (1 - q))) := by
  obtain ⟨hbi0, hbilt⟩ := query_pos d idx vec bi q hq
  obtain ⟨l, ls, hl⟩ := List.exists_cons_of_ne_nil hlocs
  have hk0 : ¬ s.known_encodings.length = 0 := by
    simpa [List.length_eq_zero] using hk
  have hbin : ¬ bi < 0 := not_lt.mpr hbi0
  have hrec : recognize_face_crop d s c =
      (if q < recognition_threshold then
        (s.known_names.get? bi.toNat).map (fun n => (n, max 0 (1 - q)))
      else some (Desconhecido, max 0 (1 - q))) := by
    simp only [recognize_face_crop, hl, henc, hidx, hq, if_neg hsize,
      if_neg hk0, if_neg hbin]
  constructor
  · intro ht
    have hlt : bi.toNat < s.known_names.length := lt_of_lt_of_le hbilt hpar
    refine ⟨s.known_names.get ⟨bi.toNat, hlt⟩, List.get?_eq_get hlt, ?_⟩
    rw [hrec, if_pos ht, List.get?_eq_get hlt]
    rfl
  · intro ht
    rw [hrec, if_neg (not_lt.mpr ht)]

/-- C2 witness: one known identity at distance one tenth yields
`(alice, 0.9)`, and at distance one yields the sentinel with
confidence zero. -/
theorem recognize_confidence_threshold_witness :
    recognize_face_crop c2Metric c2State c2Crop = some ("alice", 9/10) ∧
    recognize_face_crop c2FarMetric c2State c2Crop =
      some (Desconhecido, 0) := by
  have h1 := (recognize_confidence_threshold c2Metric c2State c2Crop
      ⟨["alice"], [[1]]⟩ [1] 0 (1/10) rfl (by simp [c2State, freshState])
      (by norm_num [c2Crop]) (by simp [c2Crop]) rfl rfl
      (by simp [c2State, freshState])).1
      (by norm_num [recognition_threshold])
  have h2 := (recognize_confidence_threshold c2FarMetric c2State c2Crop
      ⟨["alice"], [[1]]⟩ [1] 0 1 rfl (by simp [c2State, freshState])
      (by norm_num [c2Crop]) (by simp [c2Crop]) rfl rfl
      (by simp [c2State, freshState])).2
      (by norm_num [recognition_threshold])
  obtain ⟨n, hn, he⟩ := h1
  have hna : n = "alice" := by
    have : (["alice"] : List String).get? 0 = some n := hn
    simpa using this.symm
  constructor
  · rw [he, hna]
    norm_num
  · rw [h2]
    norm_num

/-- C7: the query on an empty index answers `(-1, inf)`, and the
recognizer returns the sentinel result for an empty crop, a crop with no
located face, a crop with no produced encoding, and whenever the known
identity set is empty, hence on every input in that last case. -/
theorem recognize_sentinel_cases :
    (∀ (d : Vec → Vec → ℚ) (idx : EmbeddingIndex) (v : Vec),
      idx.data = [] → idx.query d v = (-1, none)) ∧
    (∀ (d : Vec → Vec → ℚ) (s : SysState) (c : FaceCrop),
      c.h * c.w * 3 = 0 →
      recognize_face_crop d s c = some (Desconhecido, 0)) ∧
    (∀ (d : Vec → Vec → ℚ) (s : SysState) (c : FaceCrop),
      c.locs = [] →
      recognize_face_crop d s c = some (Desconhecido, 0)) ∧
    (∀ (d : Vec → Vec → ℚ) (s : SysState) (c : FaceCrop),
      c.encOfFirst = none →
      recognize_face_crop d s c = some (Desconhecido, 0)) ∧
    (∀ (d : Vec → Vec → ℚ) (s : SysState) (c : FaceCrop),
      s.known_encodings = [] →
      recognize_face_crop d s c = some (Desconhecido, 0)) := by
  refine ⟨?_, ?_, ?_, ?_, ?_⟩
  · intro d idx v h
    simp [EmbeddingIndex.query, h]
  · intro d s c h
    simp [recognize_face_crop, h]
  · intro d s c h
    unfold recognize_face_crop
    split
    · rfl
    · rw [h]
  · intro d s c h
    unfold recognize_face_crop
    split
    · rfl
    · rcases hl : c.locs with _ | ⟨a, as⟩
      · rfl
      · rw [h]
  · intro d s c h
    unfold recognize_face_crop
    split
    · rfl
    · rcases hl : c.locs with _ | ⟨a, as⟩
      · rfl
      · rcases he : c.encOfFirst with _ | v
        · rfl
        · rcases hi : s.index with _ | idx
          · rfl
          · simp [h]

/-- C7 witness: the five sentinel cases at concrete inputs. -/
theorem recognize_sentinel_cases_witness :
    EmbeddingIndex.query c2Metric ⟨[], []⟩ [1] = (-1, none) ∧
    recognize_face_crop c2Metric freshState ⟨0, 7, [(0, 7, 7, 0)], some [1]⟩ =
      some (Desconhecido, 0) ∧
    recognize_face_crop c2Metric c2State exCrop = some (Desconhecido, 0) ∧
    recognize_face_crop c2Metric c2State ⟨9, 9, [(0, 9, 9, 0)], none⟩ =
      some (Desconhecido, 0) ∧
    recognize_face_crop c2Metric freshState c2Crop =
      some (Desconhecido, 0) :=
  ⟨recognize_sentinel_cases.1 c2Metric ⟨[], []⟩ [1] rfl,
   recognize_sentinel_cases.2.1 c2Metric freshState _ (by norm_num),
   recognize_sentinel_cases.2.2.1 c2Metric c2State exCrop rfl,
   recognize_sentinel_cases.2.2.2.1 c2Metric c2State _ rfl,
   recognize_sentinel_cases.2.2.2.2 c2Metric freshState c2Crop rfl⟩

/-- C8 counterexample: loading a table whose ragged encodings make the
index rebuild raise reports failure, yet replaces the previously loaded
names and encodings while keeping the old index, so a failed load is not
atomic. -/
theorem load_encodings_partial_update_cex :
    (load_encodings c8State (some c8Bad)).2 = false ∧
    (load_encodings c8State (some c8Bad)).1.known_names ≠
      c8State.known_names ∧
    (load_encodings c8State (some c8Bad)).1.known_encodings ≠
      c8State.known_encodings ∧
    (load_encodings c8State (some c8Bad)).1.index = c8State.index := by
  simp only [load_encodings, c8Bad, c8State, freshState, asarray_ok]
  norm_num

/-- C8 (amended): a load that fails before the data is extracted — the
file is missing or unpickling fails — returns false and leaves the whole
state unchanged; when the failure instead occurs while rebuilding the
index from extracted data, the load still returns false but has already
replaced the known encodings and names, leaving the index stale. -/
theorem load_encodings_failure_semantics :
    (∀ s : SysState, load_encodings s none = (s, false)) ∧
    (∀ s : SysState, load_encodings s (some .malformed) = (s, false)) ∧
    (∀ (s : SysState) (E : List Vec) (N : List String),
      asarray_ok E = false →
      load_encodings s (some (.table E N)) =
        ({ s with known_encodings := E, known_names := N }, false)) := by
  refine ⟨fun s => rfl, fun s => rfl, fun s E N h => ?_⟩
  simp [load_encodings, h]

/-- C8 witness: the three failure shapes at concrete inputs. -/
theorem load_encodings_failure_semantics_witness :
    load_encodings c8State none = (c8State, false) ∧
    load_encodings c8State (some .malformed) = (c8State, false) ∧
    asarray_ok [[1], [2, 3]] = false ∧
    load_encodings c8State (some (.table [[1], [2, 3]] ["x", "y"])) =
      ({ c8State with known_encodings := [[1], [2, 3]], known_names := ["x", "y"] }, false) :=
  ⟨load_encodings_failure_semantics.1 c8State,
   load_encodings_failure_semantics.2.1 c8State,
   by simp [asarray_ok],
   load_encodings_failure_semantics.2.2 c8State [[1], [2, 3]] ["x", "y"]
     (by simp [asarray_ok])⟩

/-- C9: updating the store with bytes that decode to well-formed parallel
encoding and name tables succeeds: the bytes land at the backing path and
the reload leaves exactly those encodings and names in memory, in
order. -/
theorem update_encodings_roundtrip (s : SysState) (file : Option FileData)
    (E : List Vec) (N : List String)
    (hrect : asarray_ok E = true) (hpar : E.length = N.length) :
    (update_encodings s file (.table E N) true).2.2 = true ∧
    (update_encodings s file (.table E N) true).2.1 =
      some (.table E N) ∧
    (update_encodings s file (.table E N) true).1.known_encodings = E ∧
    (update_encodings s file (.table E N) true).1.known_names = N := by
  simp [update_encodings, load_encodings, hrect]

/-- C9 witness: the round trip at a concrete two-identity table. -/
theorem update_encodings_roundtrip_witness :
    asarray_ok [[1, 2], [3, 4]] = true ∧
    ([[1, 2], [3, 4]] : List Vec).length = (["a", "b"] : List String).length ∧
    (update_encodings freshState none (.table [[1, 2], [3, 4]] ["a", "b"]) true).2.2 = true ∧
    (update_encodings freshState none (.table [[1, 2], [3, 4]] ["a", "b"]) true).2.1 =
      some (.table [[1, 2], [3, 4]] ["a", "b"]) ∧
    (update_encodings freshState none (.table [[1, 2], [3, 4]] ["a", "b"]) true).1.known_encodings =
      [[1, 2], [3, 4]] ∧
    (update_encodings freshState none (.table [[1, 2], [3, 4]] ["a", "b"]) true).1.known_names =
      ["a", "b"] := by
  have h := update_encodings_roundtrip freshState none [[1, 2], [3, 4]]
    ["a", "b"] (by simp [asarray_ok]) (by simp)
  exact ⟨by simp [asarray_ok], by simp, h.1, h.2.1, h.2.2.1, h.2.2.2⟩

/-- C10: the synchronous single-frame operation leaves every piece of
service state unchanged and only returns the recognition result. -/
theorem process_single_frame_pure (d : Vec → Vec → ℚ) (s : SysState)
    (frame : FaceCrop) :
    (process_single_frame d s frame).1.tracker = s.tracker ∧
    (process_single_frame d s frame).1.pose_buffer = s.pose_buffer ∧
    (process_single_frame d s frame).1.recognition_queue =
      s.recognition_queue ∧
    (process_single_frame d s frame).1.recognition_in_progress =
      s.recognition_in_progress ∧
    (process_single_frame d s frame).1.result_displayed =
      s.result_displayed ∧
    (process_single_frame d s frame).1.lockout_active = s.lockout_active ∧
    (process_single_frame d s frame).1.known_encodings =
      s.known_encodings ∧
    (process_single_frame d s frame).1.known_names = s.known_names ∧
    (process_single_frame d s frame).1.index = s.index ∧
    (process_single_frame d s frame).2 = recognize_face_crop d s frame :=
  ⟨rfl, rfl, rfl, rfl, rfl, rfl, rfl, rfl, rfl, rfl⟩

/-! Evaluation of the C5 counterexample trace, step by step. -/

theorem c5s1_eq : c5s1 =
    ⟨true, 0, 0, [], false, false, false, 0, [], 1, [], [], none, .idle⟩ := by
  simp only [c5s1, captureStep, bumpFrame, initState, load_encodings,
    freshState, tickDetecting, largestFace, rescaledAreaRel, List.foldl,
    pyInt, video_scale_factor, min_face_area_rel, exDet, exIdleTick]
  norm_num

theorem c5s2_eq : c5s2 =
    ⟨true, 1, 0, [exSample], false, false, false, 0, [], 2, [], [], none,
      .idle⟩ := by
  rw [c5s2, c5s1_eq]
  simp only [captureStep, bumpFrame, tickTracking, samplePose, trySubmit,
    dequeAppend, pyMin, keyLt, putNowait, pose_stride, frontality_thr,
    min_face_area_rel, exTick, exSample, List.foldl, List.length]
  norm_num

theorem c5s3_eq : c5s3 =
    ⟨true, 2, 0, [exSample], false, false, false, 0, [], 3, [], [], none,
      .idle⟩ := by
  rw [c5s3, c5s2_eq]
  simp only [captureStep, bumpFrame, tickTracking, samplePose, trySubmit,
    dequeAppend, pyMin, keyLt, putNowait, pose_stride, frontality_thr,
    min_face_area_rel, exTick, exSample, List.foldl, List.length]
  norm_num

theorem c5s4_eq : c5s4 =
    ⟨true, 3, 0, [exSample, exSample], false, false, false, 0, [], 4, [],
      [], none, .idle⟩ := by
  rw [c5s4, c5s3_eq]
  simp only [captureStep, bumpFrame, tickTracking, samplePose, trySubmit,
    dequeAppend, pyMin, keyLt, putNowait, pose_stride, frontality_thr,
    min_face_area_rel, exTick, exSample, List.foldl, List.length]
  norm_num

theorem c5s5_eq : c5s5 =
    ⟨true, 4, 0, [exSample, exSample], false, false, false, 0, [], 5, [],
      [], none, .idle⟩ := by
  rw [c5s5, c5s4_eq]
  simp only [captureStep, bumpFrame, tickTracking, samplePose, trySubmit,
    dequeAppend, pyMin, keyLt, putNowait, pose_stride, frontality_thr,
    min_face_area_rel, exTick, exSample, List.foldl, List.length]
  norm_num

theorem c5s6_eq : c5s6 =
    ⟨true, 5, 0, [], true, false, false, 0, [exCrop], 6, [], [], none,
      .idle⟩ := by
  rw [c5s6, c5s5_eq]
  simp only [captureStep, bumpFrame, tickTracking, samplePose, trySubmit,
    dequeAppend, pyMin, keyLt, putNowait, pose_stride, frontality_thr,
    min_face_area_rel, exTick, exCrop, exSample, List.foldl, List.length]
  norm_num

theorem c5s7_eq : c5s7 =
    ⟨true, 5, 0, [], true, false, false, 0, [], 6, [], [], none,
      .recognizing exCrop⟩ := by
  rw [c5s7, c5s6_eq]
  simp [workerReceive]

theorem c5s8_eq : c5s8 =
    ⟨true, 6, 0, [], true, false, false, 0, [], 7, [], [], none,
      .recognizing exCrop⟩ := by
  rw [c5s8, c5s7_eq]
  simp only [captureStep, bumpFrame, tickTracking, samplePose, trySubmit,
    dequeAppend, pyMin, keyLt, putNowait, pose_stride, frontality_thr,
    min_face_area_rel, exTick, exSample, List.foldl, List.length]
  norm_num

theorem c5s9_eq : c5s9 =
    ⟨true, 7, 0, [exSample], true, false, false, 0, [], 8, [], [], none,
      .recognizing exCrop⟩ := by
  rw [c5s9, c5s8_eq]
  simp only [captureStep, bumpFrame, tickTracking, samplePose, trySubmit,
    dequeAppend, pyMin, keyLt, putNowait, pose_stride, frontality_thr,
    min_face_area_rel, exTick, exSample, List.foldl, List.length]
  norm_num

theorem c5_reach : Reachable c5s9 :=
  Reachable.step (Reachable.step (Reachable.step (Reachable.step
    (Reachable.step (Reachable.step (Reachable.step (Reachable.step
      (Reachable.step (Reachable.init none) (Step.cap _ exIdleTick exDet))
      (Step.cap _ exTick exDet)) (Step.cap _ exTick exDet))
      (Step.cap _ exTick exDet)) (Step.cap _ exTick exDet))
      (Step.cap _ exTick exDet)) (Step.recv _))
    (Step.cap _ exTick exDet)) (Step.cap _ exTick exDet)

/-- C5 counterexample: a reachable state in which the worker finishes a
recognition and stops the tracker (a Tracking to Absent transition),
while the pose buffer still holds the sample appended on frame 8 after
the candidate had been submitted — so the buffer is not empty right
after the transition. -/
theorem worker_stop_buffer_cex :
    Reachable c5s9 ∧ Step c5s9 c5post ∧ c5s9.tracker = true ∧
    c5post.tracker = false ∧ c5post.pose_buffer ≠ [] := by
  refine ⟨c5_reach, ?_, ?_, ?_, ?_⟩
  · exact Step.finish c5s9 5
  · rw [c5s9_eq]
  · rw [c5post, c5s9_eq]
    simp [workerFinish]
  · rw [c5post, c5s9_eq]
    simp [workerFinish]

/-- C5 (amended): when the transition from Tracking to Absent is caused
by a failing tracker update, the pose buffer is empty immediately after
the transition; the transition performed by the recognition worker after
a result does not clear the buffer, which may retain samples appended
after the candidate was submitted. -/
theorem tracker_loss_clears_buffer (s : SysState) (t : TrackTick)
    (dt : DetectTick) (htr : s.tracker = true) (hok : t.ok = false) :
    (captureStep s t dt).tracker = false ∧
    (captureStep s t dt).pose_buffer = [] := by
  simp [captureStep, tickTracking, bumpFrame, htr, hok]

/-- C5 witness: the tracker-failure transition at a concrete tracking
state with a nonempty buffer. -/
theorem tracker_loss_clears_buffer_witness :
    c5s9.tracker = true ∧ exFailTick.ok = false ∧
    (captureStep c5s9 exFailTick exDet).tracker = false ∧
    (captureStep c5s9 exFailTick exDet).pose_buffer = [] := by
  have ht : c5s9.tracker = true := by rw [c5s9_eq]
  have h := tracker_loss_clears_buffer c5s9 exFailTick exDet ht rfl
  exact ⟨ht, rfl, h.1, h.2⟩
